import Mathlib

/-!
Verification development for the "shanti" 60-second repeating countdown timer
(`script.js` and its unnamed near-duplicate).  The timer engine is embedded
shallowly: JavaScript numbers that can be `NaN` are modelled as `Option Int`
(`none` = `NaN`), wall-clock reads (`Date.now()`) become an explicit `now : Int`
argument, `localStorage` becomes a record of the four keys the code uses, and
the `setInterval`/`clearInterval` scheduler becomes an explicit list of
installed handles plus a fresh-handle counter.
-/

/-- A JavaScript number restricted to the integer values this program
produces; `none` models `NaN` (the result of `parseInt` on a non-numeric
string), which propagates through arithmetic and makes every comparison
false. -/
abbrev JSNum : Type := Option Int

/-- JavaScript addition on integral numbers: `NaN` propagates. -/
def jadd : JSNum → JSNum → JSNum
  | some a, some b => some (a + b)
  | _, _ => none

/-- JavaScript subtraction on integral numbers: `NaN` propagates. -/
def jsub : JSNum → JSNum → JSNum
  | some a, some b => some (a - b)
  | _, _ => none

/-- `Math.max` on integral numbers: `NaN` propagates. -/
def jmax : JSNum → JSNum → JSNum
  | some a, some b => some (max a b)
  | _, _ => none

/-- JavaScript `<=` on integral numbers: any comparison with `NaN` is false. -/
def jle : JSNum → JSNum → Bool
  | some a, some b => decide (a ≤ b)
  | _, _ => false

/-- JavaScript `<` on integral numbers: any comparison with `NaN` is false. -/
def jlt : JSNum → JSNum → Bool
  | some a, some b => decide (a < b)
  | _, _ => false

/-- JavaScript `>` on integral numbers: any comparison with `NaN` is false. -/
def jgt (a b : JSNum) : Bool := jlt b a

/-- The `++` increment: `NaN` stays `NaN`. -/
def jinc : JSNum → JSNum
  | some a => some (a + 1)
  | none => none

/-- `Number.prototype.toString` on an integral number; `NaN` prints "NaN". -/
def jstr : JSNum → String
  | some a => toString a
  | none => "NaN"

/-- `String.prototype.padStart(n, c)`. -/
def padStart (s : String) (n : Nat) (c : Char) : String :=
  if n ≤ s.length then s else String.mk (List.replicate (n - s.length) c) ++ s

/-- `const DURATION = 60` (seconds), `script.js` line 4. -/
def DURATION : Int := 60

/-- `const TICK_INTERVAL = 250` (milliseconds), `script.js` line 5. -/
def TICK_INTERVAL : Int := 250

/-- The `Math.ceil(Math.max(0, ms) / 1000)` computation inside `msToMMSS`:
for an integral argument, ceiling division of the clamped value by 1000. -/
def totalSecondsOf (ms : Int) : Nat := ((max 0 ms).toNat + 999) / 1000

/-- `msToMMSS` (`script.js` lines 68-73): clamp below at 0, take the ceiling
number of seconds, and render `MM:SS` with two-digit zero padding.  On `NaN`
every intermediate stays `NaN` and the rendering is "NaN:NaN". -/
def msToMMSS (ms : JSNum) : String :=
  match ms with
  | none => padStart "NaN" 2 '0' ++ ":" ++ padStart "NaN" 2 '0'
  | some v =>
    let totalSeconds := totalSecondsOf v
    let minutes := totalSeconds / 60
    let seconds := totalSeconds % 60
    padStart (toString minutes) 2 '0' ++ ":" ++ padStart (toString seconds) 2 '0'

/-- JavaScript truthiness of a possibly-absent string: `null` and the empty
string are falsy, every other string is truthy. -/
def strTruthy : Option String → Bool
  | some s => !s.isEmpty
  | none => false

/-- `parseInt(s, 10)`: skip leading whitespace, read an optional sign and a
longest prefix of decimal digits; `NaN` when no digit is found. -/
def jsParseInt (s : String) : JSNum :=
  let cs := s.data.dropWhile (fun c => c = ' ' ∨ c = '\t' ∨ c = '\n' ∨ c = '\r')
  let signAndRest : Int × List Char :=
    match cs with
    | '-' :: rest => (-1, rest)
    | '+' :: rest => (1, rest)
    | _ => (1, cs)
  let ds := signAndRest.2.takeWhile Char.isDigit
  if ds.isEmpty then none
  else some (signAndRest.1 * ((ds.foldl (fun acc c => acc * 10 + (c.toNat - 48)) 0 : Nat) : Int))

/-- The four `localStorage` keys the program reads and writes; `none` means
the key is absent. -/
structure Storage where
  shanti_running : Option String
  shanti_paused_remaining : Option String
  shanti_muted : Option String
  shanti_session_count : Option String
deriving DecidableEq

/-- A store with none of the four keys present. -/
def emptyStorage : Storage :=
  { shanti_running := none, shanti_paused_remaining := none,
    shanti_muted := none, shanti_session_count := none }

/-- The observable event emitted by the finish transition (chime, vibration
and screen-reader announcement are its consumers). -/
inductive Event where
  | finished
deriving DecidableEq

/-- The engine state: the module-level variables of `script.js` plus the
modelled display surfaces, the persisted store and the scheduler (list of
installed interval handles and a fresh-handle counter). -/
structure Engine where
  endTimeMs : JSNum
  intervalId : Option Nat
  pausedRemainingMs : JSNum
  running : Bool
  muted : Bool
  sessionCount : JSNum
  display : String
  badge : String
  store : Storage
  scheduled : List Nat
  nextHandle : Nat
deriving DecidableEq

/-- Module-level initial values (`script.js` lines 15-20) with a given
persisted store attached; no interval is installed yet. -/
def initialEngine (st : Storage) : Engine :=
  { endTimeMs := some 0, intervalId := none,
    pausedRemainingMs := some (DURATION * 1000),
    running := false, muted := false, sessionCount := some 0,
    display := "", badge := "", store := st,
    scheduled := [], nextHandle := 1 }

/-- JavaScript truthiness of the `intervalId` variable (`null` and `0` are
falsy). -/
def intervalTruthy : Option Nat → Bool
  | some h => decide (h ≠ 0)
  | none => false

/-- `clearInterval(i)`: remove the handle from the scheduler; a null handle
is a no-op. -/
def clearIntervalJS (i : Option Nat) (s : Engine) : Engine :=
  match i with
  | some h => { s with scheduled := s.scheduled.erase h }
  | none => s

/-- `setEndFromNow` (`script.js` lines 113-115):
`endTimeMs = Date.now() + DURATION * 1000`. -/
def setEndFromNow (now : Int) (s : Engine) : Engine :=
  { s with endTimeMs := some (now + DURATION * 1000) }

/-- `onFinish` (`script.js` lines 76-110): zero the display, emit the
finished event (chime / vibration / announcement), increment the session
counter, update the badge, persist the new count, and immediately begin the
next cycle via `setEndFromNow`. -/
def onFinish (now : Int) (s : Engine) : Engine × List Event :=
  (setEndFromNow now
    { s with
        display := "00:00",
        sessionCount := jinc s.sessionCount,
        badge := "Cycles: " ++ jstr (jinc s.sessionCount),
        store := { s.store with shanti_session_count := some (jstr (jinc s.sessionCount)) } },
   [Event.finished])

/-- `tick` (`script.js` lines 118-128): recompute the remaining time from
`endTimeMs`; at or past zero run the finish transition, otherwise render. -/
def tick (now : Int) (s : Engine) : Engine × List Event :=
  let remainingMs := jsub s.endTimeMs (some now)
  if jle remainingMs (some 0) then onFinish now s
  else ({ s with display := msToMMSS remainingMs }, [])

/-- `startTimer` (`script.js` lines 131-156): no-op while running; otherwise
resume from a strictly in-range paused remainder or start a fresh cycle,
clear any truthy interval handle, install a new interval, and persist
`running = "1"` while removing the stored remainder. -/
def startTimer (now : Int) (s : Engine) : Engine :=
  if s.running then s
  else
    let s1 : Engine :=
      if jgt s.pausedRemainingMs (some 0) && jlt s.pausedRemainingMs (some (DURATION * 1000))
      then { s with running := true, endTimeMs := jadd (some now) s.pausedRemainingMs }
      else setEndFromNow now { s with running := true }
    let s2 : Engine := if intervalTruthy s1.intervalId then clearIntervalJS s1.intervalId s1 else s1
    { s2 with
        intervalId := some s2.nextHandle,
        scheduled := s2.scheduled ++ [s2.nextHandle],
        nextHandle := s2.nextHandle + 1,
        store := { s2.store with shanti_running := some "1", shanti_paused_remaining := none } }

/-- `pauseTimer` (`script.js` lines 159-176): no-op while paused; otherwise
cancel the interval, snapshot `max(0, endTimeMs - now)` into
`pausedRemainingMs`, and persist `running = "0"` plus the remainder. -/
def pauseTimer (now : Int) (s : Engine) : Engine :=
  if !s.running then s
  else
    let p : JSNum := jmax (some 0) (jsub s.endTimeMs (some now))
    { clearIntervalJS s.intervalId s with
        running := false,
        intervalId := none,
        pausedRemainingMs := p,
        store := { s.store with shanti_running := some "0",
                                shanti_paused_remaining := some (jstr p) } }

/-- `toggleTimer` (`script.js` lines 179-185). -/
def toggleTimer (now : Int) (s : Engine) : Engine :=
  if s.running then pauseTimer now s else startTimer now s

/-- `restartTimer` (`script.js` lines 188-199): reset the remainder to a
full cycle unconditionally; while running recompute the end from now and
tick immediately, while paused just render "01:00"; finally persist the
current remainder. -/
def restartTimer (now : Int) (s : Engine) : Engine × List Event :=
  let s1 : Engine := { s with pausedRemainingMs := some (DURATION * 1000) }
  let r : Engine × List Event :=
    if s1.running then tick now (setEndFromNow now s1)
    else ({ s1 with display := "01:00" }, [])
  ({ r.1 with store := { r.1.store with shanti_paused_remaining := some (jstr r.1.pausedRemainingMs) } },
   r.2)

/-- `toggleMute` (`script.js` lines 202-212): flip the flag and persist its
`toString()`. -/
def toggleMute (s : Engine) : Engine :=
  { s with
      muted := !s.muted,
      store := { s.store with shanti_muted := some (if s.muted then "false" else "true") } }

/-- The state-restoration prefix shared by both load handlers (`script.js`
lines 259-283, unnamed duplicate lines 317-346): restore the mute flag when
the stored value is exactly "true", then `parseInt` the session count and the
paused remainder whenever their stored strings are truthy. -/
def restoreState (st : Storage) : Engine :=
  let s0 := initialEngine st
  let s1 := if st.shanti_muted = some "true" then { s0 with muted := true } else s0
  let s2 :=
    if strTruthy st.shanti_session_count then
      { s1 with
          sessionCount := jsParseInt (st.shanti_session_count.getD ""),
          badge := "Cycles: " ++ jstr (jsParseInt (st.shanti_session_count.getD "")) }
    else s1
  if strTruthy st.shanti_paused_remaining then
    { s2 with
        pausedRemainingMs := jsParseInt (st.shanti_paused_remaining.getD ""),
        display := msToMMSS (jsParseInt (st.shanti_paused_remaining.getD "")) }
  else s2

/-- The `DOMContentLoaded` handler of `script.js` (lines 259-305): restore
state, start when the saved running flag is "1", otherwise mark paused when a
remainder was saved; finally autostart unless the saved running flag is
exactly "0". -/
def domInit (st : Storage) (now : Int) : Engine :=
  let s3 := restoreState st
  let s4 :=
    if st.shanti_running = some "1" then startTimer now s3
    else if strTruthy st.shanti_paused_remaining then { s3 with running := false } else s3
  if st.shanti_running ≠ some "0" then startTimer now s4 else s4

/-- `initApp` of the unnamed duplicate (lines 317-373): same restoration,
but the final branch starts the timer unconditionally — even when the saved
running flag is "0". -/
def initApp (st : Storage) (now : Int) : Engine :=
  let s3 := restoreState st
  if st.shanti_running = some "1" then startTimer now s3
  else startTimer now { s3 with running := false }

@[simp] lemma clearIntervalJS_running (i : Option Nat) (s : Engine) :
    (clearIntervalJS i s).running = s.running := by cases i <;> rfl

@[simp] lemma clearIntervalJS_endTimeMs (i : Option Nat) (s : Engine) :
    (clearIntervalJS i s).endTimeMs = s.endTimeMs := by cases i <;> rfl

@[simp] lemma clearIntervalJS_intervalId (i : Option Nat) (s : Engine) :
    (clearIntervalJS i s).intervalId = s.intervalId := by cases i <;> rfl

@[simp] lemma clearIntervalJS_pausedRemainingMs (i : Option Nat) (s : Engine) :
    (clearIntervalJS i s).pausedRemainingMs = s.pausedRemainingMs := by cases i <;> rfl

@[simp] lemma clearIntervalJS_store (i : Option Nat) (s : Engine) :
    (clearIntervalJS i s).store = s.store := by cases i <;> rfl

@[simp] lemma clearIntervalJS_nextHandle (i : Option Nat) (s : Engine) :
    (clearIntervalJS i s).nextHandle = s.nextHandle := by cases i <;> rfl

@[simp] lemma clearIntervalJS_muted (i : Option Nat) (s : Engine) :
    (clearIntervalJS i s).muted = s.muted := by cases i <;> rfl

@[simp] lemma clearIntervalJS_sessionCount (i : Option Nat) (s : Engine) :
    (clearIntervalJS i s).sessionCount = s.sessionCount := by cases i <;> rfl

@[simp] lemma clearIntervalJS_display (i : Option Nat) (s : Engine) :
    (clearIntervalJS i s).display = s.display := by cases i <;> rfl

/-- C6: msToMMSS clamps below at zero, takes the ceiling number of seconds
(characterised by the two-sided inequality, so `totalSeconds` is exactly
`ceil(max(0,ms)/1000)`), renders minutes and seconds zero-padded as in the
four quoted examples, and shows at least one second for every `ms ≥ 1`. -/
theorem c6_msToMMSS_spec :
    msToMMSS (some 0) = "00:00" ∧ msToMMSS (some 1) = "00:01" ∧
    msToMMSS (some 60000) = "01:00" ∧ msToMMSS (some (-5)) = "00:00" ∧
    (∀ ms : Int, 0 ≤ ms →
      ms ≤ 1000 * (totalSecondsOf ms : Int) ∧
      1000 * (totalSecondsOf ms : Int) < ms + 1000) ∧
    (∀ ms : Int, 1 ≤ ms → 1 ≤ totalSecondsOf ms) := by
  refine ⟨by decide, by decide, by decide, by decide, ?_, ?_⟩
  · intro ms h
    unfold totalSecondsOf
    rw [max_eq_right h]
    omega
  · intro ms h
    unfold totalSecondsOf
    rw [max_eq_right (by omega : (0:Int) ≤ ms)]
    omega

theorem c6_msToMMSS_witness :
    ((0:Int) ≤ 5500) ∧ ((1:Int) ≤ 5500) ∧
    ((5500:Int) ≤ 1000 * (totalSecondsOf 5500 : Int) ∧
      1000 * (totalSecondsOf 5500 : Int) < 5500 + 1000) ∧
    1 ≤ totalSecondsOf 5500 :=
  ⟨by norm_num, by norm_num,
   c6_msToMMSS_spec.2.2.2.2.1 5500 (by norm_num),
   c6_msToMMSS_spec.2.2.2.2.2 5500 (by norm_num)⟩

/-- C1: while Running, a tick whose recomputed remaining time is ≤ 0 fires
the finish transition: zero display, exactly one finished event, session
count incremented by exactly one and persisted, and the end timestamp
immediately recomputed as `now + cycleDurationMs` with the engine still
Running. -/
theorem c1_finishTransition (s : Engine) (now e c : Int)
    (hrun : s.running = true) (he : s.endTimeMs = some e)
    (hc : s.sessionCount = some c) (hrem : e - now ≤ 0) :
    (tick now s).2 = [Event.finished] ∧
    ((tick now s).1).display = "00:00" ∧
    ((tick now s).1).sessionCount = some (c + 1) ∧
    ((tick now s).1).store.shanti_session_count = some (toString (c + 1)) ∧
    ((tick now s).1).endTimeMs = some (now + DURATION * 1000) ∧
    ((tick now s).1).running = true := by
  simp [tick, jsub, jle, he, hrem, onFinish, setEndFromNow, jinc, jstr, hc, hrun]

theorem c1_finishTransition_witness :
    (domInit emptyStorage 0).running = true ∧
    (domInit emptyStorage 0).endTimeMs = some 60000 ∧
    (domInit emptyStorage 0).sessionCount = some 0 ∧
    ((60000:Int) - 60000 ≤ 0) ∧
    ((tick 60000 (domInit emptyStorage 0)).2 = [Event.finished] ∧
      ((tick 60000 (domInit emptyStorage 0)).1).display = "00:00" ∧
      ((tick 60000 (domInit emptyStorage 0)).1).sessionCount = some (0 + 1) ∧
      ((tick 60000 (domInit emptyStorage 0)).1).store.shanti_session_count
        = some (toString ((0:Int) + 1)) ∧
      ((tick 60000 (domInit emptyStorage 0)).1).endTimeMs = some (60000 + DURATION * 1000) ∧
      ((tick 60000 (domInit emptyStorage 0)).1).running = true) :=
  ⟨by decide, by decide, by decide, by decide,
   c1_finishTransition (domInit emptyStorage 0) 60000 60000 0
     (by decide) (by decide) (by decide) (by decide)⟩

/-- C2: startTimer is a no-op while Running; otherwise it enters Running,
resumes from a strictly in-range paused remainder (end = now + remainder)
or otherwise starts a fresh cycle (end = now + cycleDurationMs), persists
the running flag as "1" and removes the stored remainder. -/
theorem c2_startTimer_spec (s : Engine) (now : Int) :
    (s.running = true → startTimer now s = s) ∧
    (s.running = false →
      (startTimer now s).running = true ∧
      (∀ p : Int, s.pausedRemainingMs = some p → 0 < p → p < DURATION * 1000 →
        (startTimer now s).endTimeMs = some (now + p)) ∧
      ((jgt s.pausedRemainingMs (some 0)
          && jlt s.pausedRemainingMs (some (DURATION * 1000))) = false →
        (startTimer now s).endTimeMs = some (now + DURATION * 1000)) ∧
      (startTimer now s).store.shanti_running = some "1" ∧
      (startTimer now s).store.shanti_paused_remaining = none) := by
  constructor
  · intro h; simp [startTimer, h]
  · intro h
    refine ⟨?_, ?_, ?_, ?_, ?_⟩
    · cases hb : (jgt s.pausedRemainingMs (some 0)
          && jlt s.pausedRemainingMs (some (DURATION * 1000))) <;>
        cases hi : intervalTruthy s.intervalId <;>
        simp [startTimer, h, hb, hi, setEndFromNow]
    · intro p hp h0 hd
      have hg : jgt (some p : JSNum) (some 0) = true := by
        simp [jgt, jlt]; omega
      have hl : jlt (some p : JSNum) (some (DURATION * 1000)) = true := by
        simp [jlt, DURATION] at hd ⊢; omega
      cases hi : intervalTruthy s.intervalId <;>
        simp [startTimer, h, hp, hg, hl, hi, jadd]
    · intro hcond
      cases hi : intervalTruthy s.intervalId <;>
        simp [startTimer, h, hcond, hi, setEndFromNow]
    · cases hb : (jgt s.pausedRemainingMs (some 0)
          && jlt s.pausedRemainingMs (some (DURATION * 1000))) <;>
        cases hi : intervalTruthy s.intervalId <;>
        simp [startTimer, h, hb, hi, setEndFromNow]
    · cases hb : (jgt s.pausedRemainingMs (some 0)
          && jlt s.pausedRemainingMs (some (DURATION * 1000))) <;>
        cases hi : intervalTruthy s.intervalId <;>
        simp [startTimer, h, hb, hi, setEndFromNow]

theorem c2_startTimer_witness :
    (pauseTimer 30000 (domInit emptyStorage 0)).running = false ∧
    (pauseTimer 30000 (domInit emptyStorage 0)).pausedRemainingMs = some 30000 ∧
    ((0:Int) < 30000) ∧ ((30000:Int) < DURATION * 1000) ∧
    (startTimer 100000 (pauseTimer 30000 (domInit emptyStorage 0))).endTimeMs
      = some (100000 + 30000) :=
  ⟨by decide, by decide, by decide, by decide,
   ((c2_startTimer_spec (pauseTimer 30000 (domInit emptyStorage 0)) 100000).2
     (by decide)).2.1 30000 (by decide) (by decide) (by decide)⟩

/-- C3: pauseTimer is a no-op while Paused; otherwise it cancels the
scheduled callback, snapshots `max(0, endTimestamp - now)` into the paused
remainder, leaves Running, and persists the flag "0" together with the new
remainder. -/
theorem c3_pauseTimer_spec (s : Engine) (now e : Int) :
    (s.running = false → pauseTimer now s = s) ∧
    (s.running = true → s.endTimeMs = some e →
      (pauseTimer now s).running = false ∧
      (pauseTimer now s).intervalId = none ∧
      (∀ h : Nat, s.intervalId = some h →
        (pauseTimer now s).scheduled = s.scheduled.erase h) ∧
      (pauseTimer now s).pausedRemainingMs = some (max 0 (e - now)) ∧
      (pauseTimer now s).store.shanti_running = some "0" ∧
      (pauseTimer now s).store.shanti_paused_remaining
        = some (toString (max 0 (e - now)))) := by
  constructor
  · intro h; simp [pauseTimer, h]
  · intro h he
    refine ⟨?_, ?_, ?_, ?_, ?_, ?_⟩ <;>
      simp [pauseTimer, h, he, jmax, jsub, jstr, clearIntervalJS]
    intro hd hi
    simp [hi]

theorem c3_pauseTimer_witness :
    (domInit emptyStorage 0).running = true ∧
    (domInit emptyStorage 0).endTimeMs = some 60000 ∧
    ((pauseTimer 45000 (domInit emptyStorage 0)).running = false ∧
      (pauseTimer 45000 (domInit emptyStorage 0)).intervalId = none ∧
      (∀ h : Nat, (domInit emptyStorage 0).intervalId = some h →
        (pauseTimer 45000 (domInit emptyStorage 0)).scheduled
          = (domInit emptyStorage 0).scheduled.erase h) ∧
      (pauseTimer 45000 (domInit emptyStorage 0)).pausedRemainingMs
        = some (max 0 ((60000:Int) - 45000)) ∧
      (pauseTimer 45000 (domInit emptyStorage 0)).store.shanti_running = some "0" ∧
      (pauseTimer 45000 (domInit emptyStorage 0)).store.shanti_paused_remaining
        = some (toString (max 0 ((60000:Int) - 45000)))) :=
  ⟨by decide, by decide,
   (c3_pauseTimer_spec (domInit emptyStorage 0) 45000 60000).2 (by decide) (by decide)⟩

lemma tick_fst_running (now : Int) (s : Engine) :
    ((tick now s).1).running = s.running := by
  simp only [tick]; split <;> simp [onFinish, setEndFromNow]

lemma tick_fst_pausedRemainingMs (now : Int) (s : Engine) :
    ((tick now s).1).pausedRemainingMs = s.pausedRemainingMs := by
  simp only [tick]; split <;> simp [onFinish, setEndFromNow]

lemma tick_fst_intervalId (now : Int) (s : Engine) :
    ((tick now s).1).intervalId = s.intervalId := by
  simp only [tick]; split <;> simp [onFinish, setEndFromNow]

lemma tick_fst_scheduled (now : Int) (s : Engine) :
    ((tick now s).1).scheduled = s.scheduled := by
  simp only [tick]; split <;> simp [onFinish, setEndFromNow]

lemma tick_fst_endTimeMs (now : Int) (s : Engine) :
    ((tick now s).1).endTimeMs = s.endTimeMs ∨
    ((tick now s).1).endTimeMs = some (now + DURATION * 1000) := by
  simp only [tick]; split
  · right; simp [onFinish, setEndFromNow]
  · left; simp

lemma restart_fst_pausedRemainingMs (now : Int) (s : Engine) :
    ((restartTimer now s).1).pausedRemainingMs = some (DURATION * 1000) := by
  simp only [restartTimer]; split
  · simp [tick_fst_pausedRemainingMs, setEndFromNow]
  · simp

lemma restart_fst_running (now : Int) (s : Engine) :
    ((restartTimer now s).1).running = s.running := by
  simp only [restartTimer]; split
  · simp [tick_fst_running, setEndFromNow]
  · simp

lemma restart_fst_intervalId (now : Int) (s : Engine) :
    ((restartTimer now s).1).intervalId = s.intervalId := by
  simp only [restartTimer]; split
  · simp [tick_fst_intervalId, setEndFromNow]
  · simp

lemma restart_fst_scheduled (now : Int) (s : Engine) :
    ((restartTimer now s).1).scheduled = s.scheduled := by
  simp only [restartTimer]; split
  · simp [tick_fst_scheduled, setEndFromNow]
  · simp

lemma restart_fst_store_paused (now : Int) (s : Engine) :
    ((restartTimer now s).1).store.shanti_paused_remaining = some "60000" := by
  have hj : jstr (some (DURATION * 1000) : JSNum) = "60000" := by decide
  simp only [restartTimer]; split
  · simp [tick_fst_pausedRemainingMs, setEndFromNow, hj]
  · simp [hj]

lemma tick_fst_endTimeMs_of (now : Int) (s : Engine)
    (he : s.endTimeMs = some (now + DURATION * 1000)) :
    ((tick now s).1).endTimeMs = some (now + DURATION * 1000) := by
  rcases tick_fst_endTimeMs now s with hc | hc
  · rw [hc, he]
  · rw [hc]

lemma restart_fst_endTimeMs_run (now : Int) (s : Engine) (h : s.running = true) :
    ((restartTimer now s).1).endTimeMs = some (now + DURATION * 1000) := by
  simp only [restartTimer]; split
  · exact tick_fst_endTimeMs_of now _ rfl
  · next hf => simp [h] at hf

lemma restart_fst_display_run (now : Int) (s : Engine) (h : s.running = true) :
    ((restartTimer now s).1).display = "01:00" := by
  have harith : now + DURATION * 1000 - now = DURATION * 1000 := by ring
  have hle : jle (some (DURATION * 1000) : JSNum) (some 0) = false := by decide
  have hdisp : msToMMSS (some (DURATION * 1000)) = "01:00" := by decide
  simp only [restartTimer]; split
  · unfold tick
    simp [setEndFromNow, jsub, harith, hle, hdisp]
  · next hf => simp [h] at hf

lemma restart_fst_endTimeMs_pause (now : Int) (s : Engine) (h : s.running = false) :
    ((restartTimer now s).1).endTimeMs = s.endTimeMs := by
  simp only [restartTimer]; split
  · next ht => simp [h] at ht
  · simp

/-- C7: restart resets the paused remainder to a full cycle unconditionally
and persists it; while Running it recomputes the end timestamp from now and
refreshes the display immediately; while Paused the phase and end timestamp
are left unchanged. -/
theorem c7_restartTimer_spec (s : Engine) (now : Int) :
    ((restartTimer now s).1).pausedRemainingMs = some (DURATION * 1000) ∧
    ((restartTimer now s).1).store.shanti_paused_remaining = some "60000" ∧
    ((restartTimer now s).1).running = s.running ∧
    (s.running = true →
      ((restartTimer now s).1).endTimeMs = some (now + DURATION * 1000) ∧
      ((restartTimer now s).1).display = "01:00") ∧
    (s.running = false → ((restartTimer now s).1).endTimeMs = s.endTimeMs) :=
  ⟨restart_fst_pausedRemainingMs now s,
   restart_fst_store_paused now s,
   restart_fst_running now s,
   fun h => ⟨restart_fst_endTimeMs_run now s h, restart_fst_display_run now s h⟩,
   fun h => restart_fst_endTimeMs_pause now s h⟩

theorem c7_restartTimer_witness :
    (domInit emptyStorage 0).running = true ∧
    ((restartTimer 10 (domInit emptyStorage 0)).1).endTimeMs = some (10 + DURATION * 1000) ∧
    ((restartTimer 10 (domInit emptyStorage 0)).1).display = "01:00" ∧
    (pauseTimer 30000 (domInit emptyStorage 0)).running = false ∧
    ((restartTimer 5 (pauseTimer 30000 (domInit emptyStorage 0))).1).endTimeMs
      = (pauseTimer 30000 (domInit emptyStorage 0)).endTimeMs :=
  ⟨by decide,
   ((c7_restartTimer_spec (domInit emptyStorage 0) 10).2.2.2.1 (by decide)).1,
   ((c7_restartTimer_spec (domInit emptyStorage 0) 10).2.2.2.1 (by decide)).2,
   by decide,
   (c7_restartTimer_spec (pauseTimer 30000 (domInit emptyStorage 0)) 5).2.2.2.2 (by decide)⟩

/-- A store whose saved remainder and cycle count are not parsable as
decimal integers. -/
def malformedStorage : Storage :=
  { shanti_running := none, shanti_paused_remaining := some "abc",
    shanti_muted := none, shanti_session_count := some "xyz" }

/-- C9 counterexample: an unparsable stored cycle count is NOT treated as
absent — the engine's count becomes NaN instead of the default zero. -/
theorem c9_counterexample :
    ¬ ((domInit malformedStorage 0).sessionCount = some 0) := by decide

/-- C9 amended: unparsable stored integers are assigned as NaN rather than
treated as absent; the timer field nevertheless ends on a fresh
full-duration cycle (NaN fails the resume-range check at autostart), and the
mute flag stays at its unmuted default, but the cycle count is NaN, not
zero. -/
theorem c9_malformed_amended (now : Int) :
    (domInit malformedStorage now).sessionCount = none ∧
    (domInit malformedStorage now).pausedRemainingMs = none ∧
    (domInit malformedStorage now).running = true ∧
    (domInit malformedStorage now).endTimeMs = some (now + DURATION * 1000) ∧
    (domInit malformedStorage now).muted = false :=
  ⟨rfl, rfl, rfl, rfl, rfl⟩

/-- The round-trip snapshot of C4: paused, 30000 ms remaining, muted,
seven completed cycles. -/
def roundTripStorage : Storage :=
  { shanti_running := some "0", shanti_paused_remaining := some "30000",
    shanti_muted := some "true", shanti_session_count := some "7" }

/-- C4 counterexample: the unnamed duplicate's `initApp` starts the timer
unconditionally, so reconstructing from the paused snapshot yields a
Running engine — the phase is not reproduced there. -/
theorem c4_initApp_counterexample :
    ¬ ((initApp roundTripStorage 0).running = false) := by decide

/-- C4 amended: under the `script.js` DOMContentLoaded initializer the
round trip holds — the snapshot {running:"0", pausedRemainingMs:30000,
muted:true, cycleCount:7} reconstructs as Paused with 30000 ms remaining,
muted, and count 7. -/
theorem c4_roundTrip (now : Int) :
    (domInit roundTripStorage now).running = false ∧
    (domInit roundTripStorage now).pausedRemainingMs = some 30000 ∧
    (domInit roundTripStorage now).muted = true ∧
    (domInit roundTripStorage now).sessionCount = some 7 :=
  ⟨rfl, rfl, rfl, rfl⟩

/-- C10: with an empty persisted store the load handler autostarts: the
engine ends Running with a freshly computed end timestamp `now +
cycleDurationMs`, an installed interval, and the running flag persisted. -/
theorem c10_autostart (now : Int) :
    (domInit emptyStorage now).running = true ∧
    (domInit emptyStorage now).endTimeMs = some (now + DURATION * 1000) ∧
    (domInit emptyStorage now).intervalId = some 1 ∧
    (domInit emptyStorage now).store.shanti_running = some "1" :=
  ⟨rfl, rfl, rfl, rfl⟩

/-- A persisted store is well formed when its saved remainder, if present
and truthy, parses to an integer within `[0, cycleDurationMs]` — exactly the
values the engine itself ever persists for that key. -/
def goodStore (st : Storage) : Bool :=
  !strTruthy st.shanti_paused_remaining ||
    (match jsParseInt (st.shanti_paused_remaining.getD "") with
     | some p => decide (0 ≤ p) && decide (p ≤ DURATION * 1000)
     | none => false)

/-- The engine invariant at wall-clock instant `t`: the paused remainder is
an integer within `[0, cycleDurationMs]`, the end timestamp is an integer
bounded by `t + cycleDurationMs` while Running, an interval handle is
installed exactly while Running, and the scheduler holds exactly the
engine's handle. -/
def EngineInv (s : Engine) (t : Int) : Prop :=
  (∃ p : Int, s.pausedRemainingMs = some p ∧ 0 ≤ p ∧ p ≤ DURATION * 1000) ∧
  (∃ e : Int, s.endTimeMs = some e ∧ (s.running = true → e ≤ t + DURATION * 1000)) ∧
  s.intervalId.isSome = s.running ∧
  s.scheduled = s.intervalId.toList

/-- States reachable from initialization on a well-formed store by the
public operations, with nondecreasing wall-clock time; the scheduler can
fire `tick` only while an interval is installed. -/
inductive Reach : Engine → Int → Prop where
  | init (st : Storage) (t : Int) (hg : goodStore st = true) : Reach (domInit st t) t
  | start (s : Engine) (t t' : Int) (h : Reach s t) (ht : t ≤ t') : Reach (startTimer t' s) t'
  | pause (s : Engine) (t t' : Int) (h : Reach s t) (ht : t ≤ t') : Reach (pauseTimer t' s) t'
  | toggle (s : Engine) (t t' : Int) (h : Reach s t) (ht : t ≤ t') : Reach (toggleTimer t' s) t'
  | restart (s : Engine) (t t' : Int) (h : Reach s t) (ht : t ≤ t') :
      Reach ((restartTimer t' s).1) t'
  | mute (s : Engine) (t : Int) (h : Reach s t) : Reach (toggleMute s) t
  | timerFires (s : Engine) (t t' : Int) (h : Reach s t) (ht : t ≤ t')
      (hi : s.intervalId ≠ none) : Reach ((tick t' s).1) t'

lemma inv_mono {s : Engine} {t t' : Int} (h : EngineInv s t) (ht : t ≤ t') : EngineInv s t' := by
  obtain ⟨hp, ⟨e, he, hb⟩, hs, hsch⟩ := h
  exact ⟨hp, ⟨e, he, fun hr => le_trans (hb hr) (by omega)⟩, hs, hsch⟩

lemma startTimer_notRun (s : Engine) (now : Int) (h : s.running = false)
    (hi : s.intervalId = none) :
    startTimer now s =
      { s with
          running := true,
          endTimeMs :=
            (if (jgt s.pausedRemainingMs (some 0)
                  && jlt s.pausedRemainingMs (some (DURATION * 1000)))
             then jadd (some now) s.pausedRemainingMs
             else some (now + DURATION * 1000)),
          intervalId := some s.nextHandle,
          scheduled := s.scheduled ++ [s.nextHandle],
          nextHandle := s.nextHandle + 1,
          store := { s.store with shanti_running := some "1",
                                  shanti_paused_remaining := none } } := by
  cases hb : (jgt s.pausedRemainingMs (some 0)
      && jlt s.pausedRemainingMs (some (DURATION * 1000))) <;>
    simp [startTimer, h, hb, hi, intervalTruthy, setEndFromNow]

lemma startTimer_inv {s : Engine} {t : Int} (h : EngineInv s t) : EngineInv (startTimer t s) t := by
  obtain ⟨⟨p, hp, hp0, hp1⟩, ⟨e, he, hbound⟩, hsync, hsched⟩ := h
  by_cases hr : s.running = true
  · have hid : startTimer t s = s := by simp [startTimer, hr]
    rw [hid]
    exact ⟨⟨p, hp, hp0, hp1⟩, ⟨e, he, hbound⟩, hsync, hsched⟩
  · have hr' : s.running = false := by simpa using hr
    have hi : s.intervalId = none := by
      rcases hoi : s.intervalId with _ | v
      · rfl
      · rw [hoi] at hsync; simp [hr'] at hsync
    rw [startTimer_notRun s t hr' hi]
    refine ⟨⟨p, by simp [hp], hp0, hp1⟩, ?_, by simp, ?_⟩
    · by_cases hb : (jgt s.pausedRemainingMs (some 0)
          && jlt s.pausedRemainingMs (some (DURATION * 1000))) = true
      · rw [hp] at hb
        simp only [Bool.and_eq_true] at hb
        refine ⟨t + p, ?_, fun _ => by omega⟩
        simp [hp, hb.1, hb.2, jadd]
      · have hb' : (jgt s.pausedRemainingMs (some 0)
            && jlt s.pausedRemainingMs (some (DURATION * 1000))) = false := by
          simpa using hb
        exact ⟨t + DURATION * 1000, by simp [hb'], fun _ => le_refl _⟩
    · rw [hsched, hi]
      simp

lemma pauseTimer_run (s : Engine) (now : Int) (h : s.running = true) :
    pauseTimer now s =
      { clearIntervalJS s.intervalId s with
          running := false,
          intervalId := none,
          pausedRemainingMs := jmax (some 0) (jsub s.endTimeMs (some now)),
          store := { s.store with
              shanti_running := some "0",
              shanti_paused_remaining :=
                some (jstr (jmax (some 0) (jsub s.endTimeMs (some now)))) } } := by
  simp [pauseTimer, h]

lemma pauseTimer_inv {s : Engine} {t : Int} (h : EngineInv s t) : EngineInv (pauseTimer t s) t := by
  obtain ⟨⟨p, hp, hp0, hp1⟩, ⟨e, he, hbound⟩, hsync, hsched⟩ := h
  by_cases hr : s.running = true
  · rw [pauseTimer_run s t hr]
    have hbd : e ≤ t + DURATION * 1000 := hbound hr
    have hD : (0:Int) ≤ DURATION * 1000 := by norm_num [DURATION]
    refine ⟨⟨max 0 (e - t), ?_, le_max_left _ _, ?_⟩, ⟨e, by simp [he], ?_⟩, by simp, ?_⟩
    · simp [jmax, jsub, he]
    · exact max_le hD (by omega)
    · intro hx; simp at hx
    · rcases hoi : s.intervalId with _ | v
      · rw [hoi] at hsync; simp [hr] at hsync
      · have hv : s.scheduled = [v] := by rw [hsched, hoi]; rfl
        simp [clearIntervalJS, hoi, hv]
  · have hr' : s.running = false := by simpa using hr
    have hid : pauseTimer t s = s := by simp [pauseTimer, hr']
    rw [hid]
    exact ⟨⟨p, hp, hp0, hp1⟩, ⟨e, he, hbound⟩, hsync, hsched⟩

lemma tick_inv {s : Engine} {t : Int} (h : EngineInv s t) : EngineInv ((tick t s).1) t := by
  obtain ⟨⟨p, hp, hp0, hp1⟩, ⟨e, he, hbound⟩, hsync, hsched⟩ := h
  refine ⟨⟨p, ?_, hp0, hp1⟩, ?_, ?_, ?_⟩
  · rw [tick_fst_pausedRemainingMs]; exact hp
  · rcases tick_fst_endTimeMs t s with hc | hc
    · exact ⟨e, by rw [hc]; exact he,
        fun hr => hbound (by rw [tick_fst_running] at hr; exact hr)⟩
    · exact ⟨t + DURATION * 1000, by rw [hc], fun _ => le_refl _⟩
  · rw [tick_fst_intervalId, tick_fst_running]; exact hsync
  · rw [tick_fst_scheduled, tick_fst_intervalId]; exact hsched

lemma toggleTimer_inv {s : Engine} {t : Int} (h : EngineInv s t) : EngineInv (toggleTimer t s) t := by
  unfold toggleTimer
  split
  · exact pauseTimer_inv h
  · exact startTimer_inv h

lemma toggleMute_inv {s : Engine} {t : Int} (h : EngineInv s t) : EngineInv (toggleMute s) t := by
  obtain ⟨⟨p, hp, hp0, hp1⟩, ⟨e, he, hbound⟩, hsync, hsched⟩ := h
  exact ⟨⟨p, hp, hp0, hp1⟩, ⟨e, he, hbound⟩, hsync, hsched⟩

lemma inv_store_update {s : Engine} {t : Int} (h : EngineInv s t) (st' : Storage) :
    EngineInv { s with store := st' } t := by
  obtain ⟨⟨p, hp, hp0, hp1⟩, ⟨e, he, hbound⟩, hsync, hsched⟩ := h
  exact ⟨⟨p, hp, hp0, hp1⟩, ⟨e, he, hbound⟩, hsync, hsched⟩

lemma restartTimer_inv {s : Engine} {t : Int} (h : EngineInv s t) : EngineInv ((restartTimer t s).1) t := by
  obtain ⟨⟨p, hp, hp0, hp1⟩, ⟨e, he, hbound⟩, hsync, hsched⟩ := h
  have hD : (0:Int) ≤ DURATION * 1000 := by norm_num [DURATION]
  refine ⟨⟨DURATION * 1000, restart_fst_pausedRemainingMs t s, hD, le_refl _⟩, ?_, ?_, ?_⟩
  · by_cases hr : s.running = true
    · exact ⟨t + DURATION * 1000, restart_fst_endTimeMs_run t s hr, fun _ => le_refl _⟩
    · have hr' : s.running = false := by simpa using hr
      refine ⟨e, ?_, ?_⟩
      · rw [restart_fst_endTimeMs_pause t s hr']; exact he
      · rw [restart_fst_running]; exact hbound
  · rw [restart_fst_intervalId, restart_fst_running]; exact hsync
  · rw [restart_fst_scheduled, restart_fst_intervalId]; exact hsched

lemma restoreState_fields (st : Storage) :
    (restoreState st).running = false ∧
    (restoreState st).intervalId = none ∧
    (restoreState st).scheduled = ([] : List Nat) ∧
    (restoreState st).endTimeMs = some 0 ∧
    (restoreState st).pausedRemainingMs =
      (if strTruthy st.shanti_paused_remaining
       then jsParseInt (st.shanti_paused_remaining.getD "")
       else some (DURATION * 1000)) := by
  unfold restoreState initialEngine
  split <;> split <;> split <;> simp_all

lemma restoreState_inv (st : Storage) (t : Int) (hg : goodStore st = true) :
    EngineInv (restoreState st) t := by
  obtain ⟨hrun, hint, hsch, hend, hpaused⟩ := restoreState_fields st
  refine ⟨?_, ⟨0, hend, ?_⟩, ?_, ?_⟩
  · rw [hpaused]
    by_cases htr : strTruthy st.shanti_paused_remaining = true
    · rw [if_pos htr]
      unfold goodStore at hg
      rw [htr] at hg
      simp only [Bool.not_true, Bool.false_or] at hg
      rcases hj : jsParseInt (st.shanti_paused_remaining.getD "") with _ | q
      · rw [hj] at hg; simp at hg
      · rw [hj] at hg; simp at hg
        exact ⟨q, rfl, hg.1, hg.2⟩
    · rw [if_neg htr]
      exact ⟨DURATION * 1000, rfl, by norm_num [DURATION], le_refl _⟩
  · intro hx; rw [hrun] at hx; cases hx
  · rw [hint, hrun]; rfl
  · rw [hsch, hint]; rfl

lemma domInit_inv (st : Storage) (t : Int) (hg : goodStore st = true) :
    EngineInv (domInit st t) t := by
  have h3 : EngineInv (restoreState st) t := restoreState_inv st t hg
  have h3' : EngineInv { restoreState st with running := false } t := by
    obtain ⟨⟨p, hp, hp0, hp1⟩, ⟨e, he, _⟩, _, _⟩ := h3
    obtain ⟨hrun, hint, hsch, -, -⟩ := restoreState_fields st
    refine ⟨⟨p, hp, hp0, hp1⟩, ⟨e, he, ?_⟩, ?_, ?_⟩
    · intro hx; simp at hx
    · show (restoreState st).intervalId.isSome = false
      rw [hint]; rfl
    · show (restoreState st).scheduled = (restoreState st).intervalId.toList
      rw [hint, hsch]; rfl
  have hInv4 : EngineInv (if st.shanti_running = some "1" then startTimer t (restoreState st)
      else if strTruthy st.shanti_paused_remaining
           then { restoreState st with running := false }
           else restoreState st) t := by
    split
    · exact startTimer_inv h3
    · split
      · exact h3'
      · exact h3
  rw [show domInit st t =
      (if st.shanti_running ≠ some "0"
       then startTimer t (if st.shanti_running = some "1" then startTimer t (restoreState st)
            else if strTruthy st.shanti_paused_remaining
                 then { restoreState st with running := false }
                 else restoreState st)
       else (if st.shanti_running = some "1" then startTimer t (restoreState st)
            else if strTruthy st.shanti_paused_remaining
                 then { restoreState st with running := false }
                 else restoreState st)) from rfl]
  split
  · exact startTimer_inv hInv4
  · exact hInv4

lemma reach_inv {s : Engine} {t : Int} (h : Reach s t) : EngineInv s t := by
  induction h with
  | init st t hg => exact domInit_inv st t hg
  | start s t t' h ht ih => exact startTimer_inv (inv_mono ih ht)
  | pause s t t' h ht ih => exact pauseTimer_inv (inv_mono ih ht)
  | toggle s t t' h ht ih => exact toggleTimer_inv (inv_mono ih ht)
  | restart s t t' h ht ih => exact restartTimer_inv (inv_mono ih ht)
  | mute s t h ih => exact toggleMute_inv ih
  | timerFires s t t' h ht hi ih => exact tick_inv (inv_mono ih ht)

/-- A persisted snapshot whose stored remainder exceeds the cycle duration;
initialization restores it without validation. -/
def overflowStorage : Storage :=
  { shanti_running := some "0", shanti_paused_remaining := some "70000",
    shanti_muted := none, shanti_session_count := none }

/-- C5 counterexample: initializing from a snapshot whose stored remainder
is 70000 yields a Paused state whose pausedRemainingMs exceeds
cycleDurationMs, so the claimed invariant fails for states reachable through
initialization from an arbitrary persisted snapshot. -/
theorem c5_counterexample :
    (domInit overflowStorage 0).running = false ∧
    (domInit overflowStorage 0).pausedRemainingMs = some 70000 ∧
    ¬ ((70000 : Int) ≤ DURATION * 1000) :=
  ⟨rfl, rfl, by decide⟩

/-- C5 amended: for every state reachable, with nondecreasing wall-clock
time, from initialization on a well-formed snapshot (stored remainder, when
present, parsing into [0, cycleDurationMs]) by the public operations, the
phase is Running or Paused, the paused remainder is an integer satisfying
0 ≤ pausedRemainingMs ≤ cycleDurationMs, and the end timestamp is an
integer (the phase selecting which of the two is authoritative). -/
theorem c5_invariant (s : Engine) (t : Int) (h : Reach s t) :
    (s.running = true ∨ s.running = false) ∧
    (∃ p : Int, s.pausedRemainingMs = some p ∧ 0 ≤ p ∧ p ≤ DURATION * 1000) ∧
    (∃ e : Int, s.endTimeMs = some e) := by
  obtain ⟨⟨p, hp, hp0, hp1⟩, ⟨e, he, _⟩, _, _⟩ := reach_inv h
  exact ⟨by cases hb : s.running <;> simp, ⟨p, hp, hp0, hp1⟩, ⟨e, he⟩⟩

theorem c5_invariant_witness :
    Reach (domInit emptyStorage 0) 0 ∧
    (((domInit emptyStorage 0).running = true ∨ (domInit emptyStorage 0).running = false) ∧
      (∃ p : Int, (domInit emptyStorage 0).pausedRemainingMs = some p ∧
        0 ≤ p ∧ p ≤ DURATION * 1000) ∧
      (∃ e : Int, (domInit emptyStorage 0).endTimeMs = some e)) :=
  ⟨Reach.init emptyStorage 0 (by decide),
   c5_invariant (domInit emptyStorage 0) 0 (Reach.init emptyStorage 0 (by decide))⟩

/-- C8: on any reachable state, calling startTimer while already Running
returns the state completely unchanged (phase, end timestamp, paused
remainder, interval handle, persisted keys — the whole engine), and the
scheduler never holds more than one installed callback. -/
theorem c8_start_idempotent (s : Engine) (t now : Int) (h : Reach s t) :
    (s.running = true → startTimer now s = s) ∧ s.scheduled.length ≤ 1 := by
  constructor
  · intro hr; simp [startTimer, hr]
  · obtain ⟨_, _, _, hsched⟩ := reach_inv h
    rw [hsched]
    cases s.intervalId <;> simp

theorem c8_start_idempotent_witness :
    Reach (domInit emptyStorage 0) 0 ∧
    startTimer 77 (domInit emptyStorage 0) = domInit emptyStorage 0 ∧
    (domInit emptyStorage 0).scheduled.length ≤ 1 :=
  ⟨Reach.init emptyStorage 0 (by decide),
   (c8_start_idempotent (domInit emptyStorage 0) 0 77
     (Reach.init emptyStorage 0 (by decide))).1 (by decide),
   (c8_start_idempotent (domInit emptyStorage 0) 0 77
     (Reach.init emptyStorage 0 (by decide))).2⟩

example : msToMMSS (some 0) = "00:00" := by decide
example : msToMMSS (some 1) = "00:01" := by decide
example : msToMMSS (some 60000) = "01:00" := by decide
example : msToMMSS (some (-5)) = "00:00" := by decide
example : msToMMSS none = "NaN:NaN" := by decide
example : jsParseInt "30000" = some 30000 := by decide
example : jsParseInt "abc" = none := by decide
example : jsParseInt "-5" = some (-5) := by decide
example : (domInit emptyStorage 0).running = true := by decide
example : (domInit emptyStorage 0).endTimeMs = some 60000 := by decide
example : (domInit emptyStorage 0).scheduled = [1] := by decide
